import Mathlib

set_option maxRecDepth 100000

/-!
Verification of the cert-manager metrics controller scenario, the
controller runner's sync-call bookkeeping, the work-queue backoff policy,
the challenge solver dispatch rule, and the feature-gate registration,
against a shallow embedding of the repository's code.
-/

/-- Ready condition value of a certificate, as exposed by the
`certmanager_certificate_ready_status` gauge: one series per condition
value, the series matching the certificate's Ready condition reads 1. -/
inductive CondStatus where
  | condTrue
  | condFalse
  | condUnknown
  deriving DecidableEq

/-- One certificate's per-certificate metric series: its namespace and
name labels, its Ready condition value and its expiration timestamp. -/
structure CertMetric where
  ns : String
  name : String
  ready : CondStatus
  expiration : Int
  deriving DecidableEq

/-- Modelled from the spec: the state held by the metrics sink
(pkg/metrics is not under src/; its behaviour is fixed by the reference
scenario in spec section 8 and by TestMetricsController): per-certificate
series keyed by namespace and name, and one sync-call counter per
controller name. -/
structure MetricsState where
  certs : List CertMetric
  syncCounts : List (String × Nat)
  deriving DecidableEq

/-- Value of an association list at a key, 0 when absent (a Prometheus
counter that was never incremented reads 0 once created). -/
def getCount : List (String × Nat) → String → Nat
  | [], _ => 0
  | p :: t, k => if p.1 = k then p.2 else getCount t k

/-- Set the value of an association list at a key, appending when absent. -/
def setCount : List (String × Nat) → String → Nat → List (String × Nat)
  | [], k, v => [(k, v)]
  | p :: t, k, v => if p.1 = k then (k, v) :: t else p :: setCount t k v

/-- Modelled from the spec: observing a certificate replaces any existing
series for the same namespace/name key with the freshly derived ones. -/
def observeCertificate (s : MetricsState) (c : CertMetric) : MetricsState :=
  { s with certs :=
      (s.certs.filter (fun x => !(x.ns == c.ns && x.name == c.name))) ++ [c] }

/-- Modelled from the spec: deleting a certificate removes every
per-certificate series for its namespace/name key from the exposition. -/
def removeCertificateMetrics (s : MetricsState) (ns name : String) : MetricsState :=
  { s with certs := s.certs.filter (fun x => !(x.ns == ns && x.name == name)) }

/-- Modelled from the spec: every sync attempt increments the monotonic
sync-call counter labelled by controller name. -/
def IncrementSyncCallCount (s : MetricsState) (controller : String) : MetricsState :=
  { s with syncCounts :=
      setCount s.syncCounts controller (getCount s.syncCounts controller + 1) }

/-- Exposed value of `certmanager_certificate_ready_status` for one
condition series, `none` when no series exists for the key. -/
def readyStatusValue (s : MetricsState) (ns name : String) (cond : CondStatus) : Option Nat :=
  (s.certs.find? (fun x => x.ns == ns && x.name == name)).map
    (fun c => if c.ready = cond then 1 else 0)

/-- Exposed value of `certmanager_certificate_expiration_timestamp_seconds`,
`none` when no series exists for the key. -/
def expirationValue (s : MetricsState) (ns name : String) : Option Int :=
  (s.certs.find? (fun x => x.ns == ns && x.name == name)).map
    (fun c => c.expiration)

/-- Exposed value of `certmanager_controller_sync_call_count` for one
controller, `none` when the counter series was never created. -/
def syncCallCount (s : MetricsState) (controller : String) : Option Nat :=
  (s.syncCounts.find? (fun p => p.1 == controller)).map (fun p => p.2)

/-- A certificate condition as stored on the resource status
(cmapi.CertificateCondition: a type and a status string). -/
structure CertificateCondition where
  condType : String
  status : String
  deriving DecidableEq

/-- Certificate status: optional NotAfter expiry (as unix seconds) and the
condition list, embedding the fields the test sets. -/
structure CertificateStatus where
  notAfter : Option Int
  conditions : List CertificateCondition
  deriving DecidableEq

/-- A Certificate resource as far as the metrics controller reads it. -/
structure Certificate where
  ns : String
  name : String
  status : CertificateStatus
  deriving DecidableEq

/-- Modelled from the spec: the metrics controller derives the ready gauge
from the certificate's Ready condition; a certificate whose status has no
Ready condition is reported Unknown. -/
def readyOf (c : Certificate) : CondStatus :=
  match c.status.conditions.find? (fun cc => cc.condType == "Ready") with
  | some cc =>
    if cc.status == "True" then CondStatus.condTrue
    else if cc.status == "False" then CondStatus.condFalse
    else CondStatus.condUnknown
  | none => CondStatus.condUnknown

/-- Modelled from the spec: the expiration gauge is the NotAfter unix
time, 0 when unset. -/
def expirationOf (c : Certificate) : Int :=
  match c.status.notAfter with
  | some t => t
  | none => 0

/-- Modelled from the spec: updating the sink for one certificate. -/
def updateCertificateMetrics (s : MetricsState) (c : Certificate) : MetricsState :=
  observeCertificate s
    { ns := c.ns, name := c.name, ready := readyOf c, expiration := expirationOf c }

/-- Modelled from the spec: one sync pass of the metrics controller for a
namespace/name key: when the certificate exists in the store its series
are re-derived, otherwise its series are removed. -/
def processCertificateItem (store : List Certificate) (ns name : String) (s : MetricsState) : MetricsState :=
  match store.find? (fun c => c.ns == ns && c.name == name) with
  | some c => updateCertificateMetrics s c
  | none => removeCertificateMetrics s ns name

/-- Day count from 1970-01-01 of a proleptic-Gregorian civil date, as Go
time.Date computes it for the fixed test clock. -/
def daysFromCivil (y m d : Int) : Int :=
  let y2 := if m ≤ 2 then y - 1 else y
  let era := (if 0 ≤ y2 then y2 else y2 - 399) / 400
  let yoe := y2 - era * 400
  let mp := (m + 9) % 12
  let doy := (153 * mp + 2) / 5 + d - 1
  let doe := yoe * 365 + yoe / 4 - yoe / 100 + doy
  era * 146097 + doe - 719468

/-- Unix seconds of the fixed fake clock
time.Date(2006, 1, 2, 15, 4, 5, 0, time.UTC) used by the test. -/
def fixedClockUnix : Int :=
  daysFromCivil 2006 1 2 * 86400 + (15 * 3600 + 4 * 60 + 5)

/-- Go fmt %.9e rendering of a nonnegative integer with at most ten
significant digits (the only inputs used here, so no rounding occurs):
one leading digit, nine fraction digits, two exponent digits. -/
def formatE9 (n : Int) : String :=
  let s := toString n.toNat
  let frac := (s.drop 1).take 9
  let fracPadded := frac ++ String.mk (List.replicate (9 - frac.length) '0')
  let e := s.length - 1
  s.take 1 ++ "." ++ fracPadded ++ "e+" ++
    (if e < 10 then "0" ++ toString e else toString e)

/-- The clock metric text of src/unnamed/part_000 lines 46-50: HELP and
TYPE headers and the %.9e-formatted value of the fixed clock. -/
def clockMetric : String :=
  "# HELP certmanager_clock_time_seconds The clock time given in seconds (from 1970/01/01 UTC).\n" ++
  "# TYPE certmanager_clock_time_seconds counter\n" ++
  "certmanager_clock_time_seconds " ++ formatE9 fixedClockUnix

/-- The clock metric text as its three exposition lines: HELP header,
TYPE header, value line. -/
def clockMetricLines : List String :=
  [ "# HELP certmanager_clock_time_seconds The clock time given in seconds (from 1970/01/01 UTC).",
    "# TYPE certmanager_clock_time_seconds counter",
    "certmanager_clock_time_seconds " ++ formatE9 fixedClockUnix ]

/-- Insert into a list sorted by a boolean order. -/
def insertSorted {α : Type} (le : α → α → Bool) (x : α) : List α → List α
  | [] => [x]
  | y :: t => if le x y then x :: y :: t else y :: insertSorted le x t

/-- Insertion sort by a boolean order, used to model the Prometheus
registry's sorted exposition of series. -/
def sortSeries {α : Type} (le : α → α → Bool) (l : List α) : List α :=
  l.foldr (insertSorted le) []

/-- Series order within a per-certificate family: by name label, then by
namespace label. -/
def certLE (a b : CertMetric) : Bool :=
  if a.name = b.name then !(decide (b.ns < a.ns)) else decide (a.name < b.name)

/-- Series order within the sync-call counter family: by controller label. -/
def countLE (p q : String × Nat) : Bool :=
  !(decide (q.1 < p.1))

/-- Exposition line of one expiration series. -/
def expirationLine (c : CertMetric) : String :=
  "certmanager_certificate_expiration_timestamp_seconds\x7bname=\"" ++ c.name ++
    "\",namespace=\"" ++ c.ns ++ "\"\x7d " ++ toString c.expiration

/-- Label value of a ready condition. -/
def condName : CondStatus → String
  | CondStatus.condTrue => "True"
  | CondStatus.condFalse => "False"
  | CondStatus.condUnknown => "Unknown"

/-- Exposition line of one ready-status series: 1 on the series matching
the certificate's Ready condition, 0 on the other two. -/
def readyLine (c : CertMetric) (cond : CondStatus) : String :=
  "certmanager_certificate_ready_status\x7bcondition=\"" ++ condName cond ++
    "\",name=\"" ++ c.name ++ "\",namespace=\"" ++ c.ns ++ "\"\x7d " ++
    (if c.ready = cond then "1" else "0")

/-- Exposition line of one sync-call counter series. -/
def syncLine (p : String × Nat) : String :=
  "certmanager_controller_sync_call_count\x7bcontroller=\"" ++ p.1 ++ "\"\x7d " ++
    toString p.2

/-- Expiration metric family: absent when it has no series. -/
def expirationBlock (certs : List CertMetric) : List String :=
  if certs.isEmpty then [] else
    "# HELP certmanager_certificate_expiration_timestamp_seconds The date after which the certificate expires. Expressed as a Unix Epoch Time." ::
    "# TYPE certmanager_certificate_expiration_timestamp_seconds gauge" ::
    certs.map expirationLine

/-- Ready-status metric family: absent when it has no series; condition
label values in sorted order False, True, Unknown. -/
def readyBlock (certs : List CertMetric) : List String :=
  if certs.isEmpty then [] else
    "# HELP certmanager_certificate_ready_status The ready status of the certificate." ::
    "# TYPE certmanager_certificate_ready_status gauge" ::
    (certs.map (fun c =>
      [readyLine c CondStatus.condFalse, readyLine c CondStatus.condTrue,
       readyLine c CondStatus.condUnknown])).flatten

/-- Sync-call counter family: absent when no counter was ever created. -/
def syncBlock (counts : List (String × Nat)) : List String :=
  if counts.isEmpty then [] else
    "# HELP certmanager_controller_sync_call_count The number of sync() calls made by a controller." ::
    "# TYPE certmanager_controller_sync_call_count counter" ::
    counts.map syncLine

/-- Modelled from the spec: the plaintext exposition of the metrics
endpoint — families in alphabetical order (expiration, ready status,
clock, sync-call count), each family present only when it has a series,
series sorted by label values. -/
def renderLines (s : MetricsState) : List String :=
  expirationBlock (sortSeries certLE s.certs) ++
  readyBlock (sortSeries certLE s.certs) ++
  [clockMetric] ++
  syncBlock (sortSeries countLE s.syncCounts)

/-- The full exposition text (whitespace-trimmed form compared by the
test's waitForMetrics). -/
def renderMetrics (s : MetricsState) : String :=
  String.intercalate "\n" (renderLines s)

/-- The sink before any resource exists and before any sync attempt. -/
def emptyMetrics : MetricsState :=
  { certs := [], syncCounts := [] }

/-- The Certificate testcrt in namespace testns as created by the test:
issuer, secret name and common name set, status unset. -/
def testCrtCreated : Certificate :=
  { ns := "testns", name := "testcrt",
    status := { notAfter := none, conditions := [] } }

/-- testcrt after the test's UpdateStatus: NotAfter = unix time 100 and a
Ready condition with status True. -/
def testCrtUpdated : Certificate :=
  { ns := "testns", name := "testcrt",
    status := { notAfter := some 100,
                conditions := [{ condType := "Ready", status := "True" }] } }

/-- Sink state after the sync pass triggered by creating testcrt: the
controller runner increments the sync-call counter for every attempt. -/
def metricsAfterCreate : MetricsState :=
  IncrementSyncCallCount
    (processCertificateItem [testCrtCreated] "testns" "testcrt" emptyMetrics)
    "metrics_test"

/-- Sink state after the sync pass triggered by the status update. -/
def metricsAfterUpdate : MetricsState :=
  IncrementSyncCallCount
    (processCertificateItem [testCrtUpdated] "testns" "testcrt" metricsAfterCreate)
    "metrics_test"

/-- Sink state after the sync pass triggered by deleting testcrt. -/
def metricsAfterDelete : MetricsState :=
  IncrementSyncCallCount
    (processCertificateItem [] "testns" "testcrt" metricsAfterUpdate)
    "metrics_test"

/-- The exposition the test expects after creating testcrt with an unset
status (src/unnamed/part_000 lines 169-181). -/
def expectedAfterCreate : String :=
  String.intercalate "\n"
    [ "# HELP certmanager_certificate_expiration_timestamp_seconds The date after which the certificate expires. Expressed as a Unix Epoch Time.",
      "# TYPE certmanager_certificate_expiration_timestamp_seconds gauge",
      "certmanager_certificate_expiration_timestamp_seconds\x7bname=\"testcrt\",namespace=\"testns\"\x7d 0",
      "# HELP certmanager_certificate_ready_status The ready status of the certificate.",
      "# TYPE certmanager_certificate_ready_status gauge",
      "certmanager_certificate_ready_status\x7bcondition=\"False\",name=\"testcrt\",namespace=\"testns\"\x7d 0",
      "certmanager_certificate_ready_status\x7bcondition=\"True\",name=\"testcrt\",namespace=\"testns\"\x7d 0",
      "certmanager_certificate_ready_status\x7bcondition=\"Unknown\",name=\"testcrt\",namespace=\"testns\"\x7d 1",
      clockMetric,
      "# HELP certmanager_controller_sync_call_count The number of sync() calls made by a controller.",
      "# TYPE certmanager_controller_sync_call_count counter",
      "certmanager_controller_sync_call_count\x7bcontroller=\"metrics_test\"\x7d 1" ]

/-- The exposition the test expects after the status update
(src/unnamed/part_000 lines 199-211). -/
def expectedAfterUpdate : String :=
  String.intercalate "\n"
    [ "# HELP certmanager_certificate_expiration_timestamp_seconds The date after which the certificate expires. Expressed as a Unix Epoch Time.",
      "# TYPE certmanager_certificate_expiration_timestamp_seconds gauge",
      "certmanager_certificate_expiration_timestamp_seconds\x7bname=\"testcrt\",namespace=\"testns\"\x7d 100",
      "# HELP certmanager_certificate_ready_status The ready status of the certificate.",
      "# TYPE certmanager_certificate_ready_status gauge",
      "certmanager_certificate_ready_status\x7bcondition=\"False\",name=\"testcrt\",namespace=\"testns\"\x7d 0",
      "certmanager_certificate_ready_status\x7bcondition=\"True\",name=\"testcrt\",namespace=\"testns\"\x7d 1",
      "certmanager_certificate_ready_status\x7bcondition=\"Unknown\",name=\"testcrt\",namespace=\"testns\"\x7d 0",
      clockMetric,
      "# HELP certmanager_controller_sync_call_count The number of sync() calls made by a controller.",
      "# TYPE certmanager_controller_sync_call_count counter",
      "certmanager_controller_sync_call_count\x7bcontroller=\"metrics_test\"\x7d 2" ]

/-- The exposition the test expects after deleting testcrt
(src/unnamed/part_000 lines 219-223). -/
def expectedAfterDelete : String :=
  String.intercalate "\n"
    [ clockMetric,
      "# HELP certmanager_controller_sync_call_count The number of sync() calls made by a controller.",
      "# TYPE certmanager_controller_sync_call_count counter",
      "certmanager_controller_sync_call_count\x7bcontroller=\"metrics_test\"\x7d 3" ]

/-- Modelled from the spec: a per-item rate limiter — exponential backoff
per key, capped (the work-queue retry policy of spec section 4.1). -/
structure RateLimiter where
  baseDelay : Nat
  maxDelay : Nat
  deriving DecidableEq

/-- Requeue delay for an item that has already failed `failures` times:
base times 2 to the number of failures, capped at the maximum delay. -/
def RateLimiter.delayFor (rl : RateLimiter) (failures : Nat) : Nat :=
  min (rl.baseDelay * 2 ^ failures) rl.maxDelay

/-- Modelled from the spec: the work queue's built-in default backoff
(base 5 ms, cap 1000 s, in milliseconds), used when no rate limiter is
configured. -/
def DefaultControllerRateLimiter : RateLimiter :=
  { baseDelay := 5, maxDelay := 1000000 }

/-- Drop a key from a per-key failure-count table. -/
def removeKey (l : List (String × Nat)) (k : String) : List (String × Nat) :=
  l.filter (fun p => !(decide (p.1 = k)))

/-- Modelled from the spec: one transient failure of a key — the returned
requeue delay is computed from the key's current failure count, which is
then incremented. -/
def whenItem (rl : RateLimiter) (st : List (String × Nat)) (k : String) :
    Nat × List (String × Nat) :=
  (rl.delayFor (getCount st k), setCount st k (getCount st k + 1))

/-- Modelled from the spec: Forget clears a key's retry/backoff counter on
success. -/
def forgetItem (st : List (String × Nat)) (k : String) : List (String × Nat) :=
  removeKey st k

/-- Failure-count table after n consecutive transient failures of key k. -/
def failSeq (rl : RateLimiter) (st : List (String × Nat)) (k : String) : Nat → List (String × Nat)
  | 0 => st
  | n + 1 => (whenItem rl (failSeq rl st k n) k).2

/-- Requeue delay produced by the (n+1)-th consecutive transient failure
of key k. -/
def nthDelay (rl : RateLimiter) (st : List (String × Nat)) (k : String) (n : Nat) : Nat :=
  (whenItem rl (failSeq rl st k n) k).1

/-- Outcome of one invocation of a controller's sync function. -/
inductive SyncOutcome where
  | success
  | transientErr
  | terminalErr
  deriving DecidableEq

/-- Runner-visible state: the metrics sink plus the queue's per-key
failure counts. -/
structure RunnerState where
  metrics : MetricsState
  failures : List (String × Nat)
  deriving DecidableEq

/-- Modelled from the spec: per-item processing of the controller runner.
Every attempt increments the sync-call counter for the controller,
independent of outcome; success calls Forget (clearing the key's
backoff); a transient error requeues with backoff (bumping the key's
failure count); a terminal error is reported and the key released. -/
def processNextWorkItem (cn : String) (rl : RateLimiter) (key : String)
    (o : SyncOutcome) (st : RunnerState) : RunnerState :=
  let m := IncrementSyncCallCount st.metrics cn
  match o with
  | SyncOutcome.success => { metrics := m, failures := forgetItem st.failures key }
  | SyncOutcome.transientErr => { metrics := m, failures := (whenItem rl st.failures key).2 }
  | SyncOutcome.terminalErr => { metrics := m, failures := st.failures }

/-- Process a sequence of work items (key and sync outcome), in order. -/
def processAll (cn : String) (rl : RateLimiter) (items : List (String × SyncOutcome))
    (st : RunnerState) : RunnerState :=
  items.foldl (fun st p => processNextWorkItem cn rl p.1 p.2 st) st

/-- Modelled from the spec: the runnable produced by NewController —
its name, effective rate limiter, sync function, informer-sync
predicates and work queue. -/
structure Controller where
  ctrlName : String
  rateLimiter : RateLimiter
  syncFn : String → SyncOutcome
  mustSync : List Bool
  queue : List String

/-- Modelled from the spec: NewController(ctx, name, metricsSink, syncFn,
readyPredicates, rateLimiter, workQueue) → runnable; a nil (none) rate
limiter implies the queue's built-in default backoff. -/
def NewController (name : String) (syncFn : String → SyncOutcome)
    (mustSync : List Bool) (rateLimiter : Option RateLimiter)
    (queue : List String) : Controller :=
  { ctrlName := name,
    rateLimiter := rateLimiter.getD DefaultControllerRateLimiter,
    syncFn := syncFn, mustSync := mustSync, queue := queue }

/-- Modelled from the spec: running the controller first waits for the
informer-sync predicates (failure is fatal to this controller and its
workers never start), then the workers drain the queue. -/
def Controller.start (c : Controller) (st : RunnerState) : Except String RunnerState :=
  if c.mustSync.all (fun b => b) then
    Except.ok (processAll c.ctrlName c.rateLimiter
      (c.queue.map (fun k => (k, c.syncFn k))) st)
  else
    Except.error "error waiting for informer caches to sync"

/-- API group/kind claimed by a solver backend and referenced by a
Challenge's solver configuration. -/
structure GroupKind where
  group : String
  kind : String
  deriving DecidableEq, BEq

/-- Modelled from the spec: a Solver Backend Descriptor — the group/kind
it claims to handle, its endpoint URL (read-only configuration). -/
structure SolverBackend where
  claims : GroupKind
  endpoint : String
  deriving DecidableEq

/-- Challenge lifecycle states of spec section 4.3. -/
inductive ChallengeState where
  | Pending
  | Presenting
  | Valid
  | Invalid
  deriving DecidableEq

/-- Modelled from the spec: a Challenge — its solver configuration
reference, its lifecycle state, and the reason reported on its status. -/
structure Challenge where
  solverRef : GroupKind
  state : ChallengeState
  reason : Option String
  deriving DecidableEq

/-- The backends whose claimed group/kind matches a solver reference. -/
def matchingBackends (backends : List SolverBackend) (ref : GroupKind) : List SolverBackend :=
  backends.filter (fun b => b.claims == ref)

/-- Modelled from the spec (section 4.3): dispatch selects exactly one
backend whose claimed group/kind matches the Challenge's solver
reference; zero or multiple matches are a configuration error reported on
the Challenge's status and the state does not advance. On a unique match
the Challenge enters Presenting. -/
def dispatchChallenge (backends : List SolverBackend) (ch : Challenge) :
    Challenge × Option String :=
  match matchingBackends backends ch.solverRef with
  | [] =>
    ({ ch with reason := some "configuration error: no solver backend claims the referenced group/kind" },
     some "configuration error: no solver backend claims the referenced group/kind")
  | [_] =>
    ({ ch with state := ChallengeState.Presenting, reason := none }, none)
  | _ :: _ :: _ =>
    ({ ch with reason := some "configuration error: multiple solver backends claim the referenced group/kind" },
     some "configuration error: multiple solver backends claim the referenced group/kind")

/-- Pre-release stage of a feature gate (k8s featuregate.FeatureSpec). -/
inductive PreReleaseStage where
  | Alpha
  | Beta
  | GA
  deriving DecidableEq, BEq

/-- A feature gate spec: its default enablement and pre-release stage. -/
structure FeatureSpec where
  Default : Bool
  PreRelease : PreReleaseStage
  deriving DecidableEq, BEq

/-- Feature key ValidateCAA (src/pkg/feature/features.go line 30). -/
def ValidateCAA : String := "ValidateCAA"

/-- Feature key ExperimentalCertificateSigningRequestControllers
(src/pkg/feature/features.go line 36). -/
def ExperimentalCertificateSigningRequestControllers : String :=
  "ExperimentalCertificateSigningRequestControllers"

/-- Feature key ExperimentalGatewayAPISupport
(src/pkg/feature/features.go line 42). -/
def ExperimentalGatewayAPISupport : String := "ExperimentalGatewayAPISupport"

/-- All known cert-manager feature keys with their specs
(src/pkg/feature/features.go lines 52-56). -/
def defaultCertManagerFeatureGates : List (String × FeatureSpec) :=
  [ (ValidateCAA,
     { Default := false, PreRelease := PreReleaseStage.Alpha }),
    (ExperimentalCertificateSigningRequestControllers,
     { Default := false, PreRelease := PreReleaseStage.Alpha }),
    (ExperimentalGatewayAPISupport,
     { Default := false, PreRelease := PreReleaseStage.Alpha }) ]

/-- Modelled from the spec: the process-wide mutable feature-gate registry
(pkg/util/feature.DefaultMutableFeatureGate, not under src/), holding the
gate specs registered so far. -/
structure MutableFeatureGate where
  known : List (String × FeatureSpec)
  deriving DecidableEq

/-- Modelled from the spec: Add registers gate specs into the registry,
mutating the shared state (k8s MutableFeatureGate.Add). -/
def MutableFeatureGate.Add (g : MutableFeatureGate) (specs : List (String × FeatureSpec)) :
    MutableFeatureGate :=
  { known := g.known ++ specs }

/-- The process-wide singleton before the feature package is initialised:
no cert-manager gate registered yet. -/
def initialDefaultMutableFeatureGate : MutableFeatureGate :=
  { known := [] }

/-- Embedding of src/pkg/feature/features.go lines 45-47: package init
calls runtime.Must(utilfeature.DefaultMutableFeatureGate.Add(
defaultCertManagerFeatureGates)), registering the gates into the
process-wide mutable singleton. -/
def featureInit (g : MutableFeatureGate) : MutableFeatureGate :=
  g.Add defaultCertManagerFeatureGates

/-- Helper: reading an association list at a key just written returns the
written value. -/
theorem getCount_setCount_self (l : List (String × Nat)) (k : String) (v : Nat) :
    getCount (setCount l k v) k = v := by
  induction l with
  | nil => simp [setCount, getCount]
  | cons p t ih =>
    by_cases h : p.1 = k
    · simp [setCount, getCount, h]
    · simp [setCount, getCount, h, ih]

/-- Helper: a key just forgotten has failure count 0. -/
theorem getCount_forgetItem_self (st : List (String × Nat)) (k : String) :
    getCount (forgetItem st k) k = 0 := by
  induction st with
  | nil => simp [forgetItem, removeKey, getCount]
  | cons p t ih =>
    by_cases h : p.1 = k
    · simpa [forgetItem, removeKey, h] using ih
    · simpa [forgetItem, removeKey, getCount, h] using ih

/-- Helper: n consecutive failures of key k raise its failure count by n. -/
theorem getCount_failSeq (rl : RateLimiter) (st : List (String × Nat)) (k : String) (n : Nat) :
    getCount (failSeq rl st k n) k = getCount st k + n := by
  induction n with
  | zero => simp [failSeq]
  | succ n ih =>
    simp only [failSeq, whenItem]
    rw [getCount_setCount_self, ih]
    omega

/-- Helper: the delay formula is monotone in the failure count. -/
theorem delayFor_mono (rl : RateLimiter) {m n : Nat} (h : m ≤ n) :
    rl.delayFor m ≤ rl.delayFor n := by
  unfold RateLimiter.delayFor
  exact min_le_min
    (Nat.mul_le_mul_left _ (Nat.pow_le_pow_right (by norm_num) h)) le_rfl

/-- Helper: the delay produced by the (n+1)-th consecutive failure is the
delay formula at the accumulated failure count. -/
theorem nthDelay_eq (rl : RateLimiter) (st : List (String × Nat)) (k : String) (n : Nat) :
    nthDelay rl st k n = rl.delayFor (getCount st k + n) := by
  simp [nthDelay, whenItem, getCount_failSeq]

/-- Helper: one attempt increments the controller's sync-call counter. -/
theorem getCount_processNextWorkItem (cn : String) (rl : RateLimiter) (key : String)
    (o : SyncOutcome) (st : RunnerState) :
    getCount (processNextWorkItem cn rl key o st).metrics.syncCounts cn =
      getCount st.metrics.syncCounts cn + 1 := by
  cases o <;>
    simp [processNextWorkItem, IncrementSyncCallCount, getCount_setCount_self]

/-- Helper: processing a batch of items adds its length to the counter. -/
theorem getCount_processAll (cn : String) (rl : RateLimiter)
    (items : List (String × SyncOutcome)) (st : RunnerState) :
    getCount (processAll cn rl items st).metrics.syncCounts cn =
      getCount st.metrics.syncCounts cn + items.length := by
  induction items generalizing st with
  | nil => simp [processAll]
  | cons p t ih =>
    simp only [processAll, List.foldl_cons, List.length_cons]
    rw [show List.foldl (fun st p => processNextWorkItem cn rl p.1 p.2 st)
          (processNextWorkItem cn rl p.1 p.2 st) t =
        processAll cn rl t (processNextWorkItem cn rl p.1 p.2 st) from rfl]
    rw [ih, getCount_processNextWorkItem]
    omega

/-- Claim C1: for the Certificate testcrt in namespace testns, the
per-certificate gauges track the certificate's status: after creation
with an unset status the Unknown ready-status series reads 1 and the True
and False series 0, the expiration gauge reads 0 and the sync-call
counter for controller metrics_test reads 1; after updating the status to
Ready=True with NotAfter = unix time 100, the True series reads 1 and the
other two 0, the expiration gauge reads 100 and the sync counter reads 2;
the full expositions equal the test's expected text. -/
theorem certificate_metrics_track_status :
    readyStatusValue metricsAfterCreate "testns" "testcrt" CondStatus.condUnknown = some 1 ∧
    readyStatusValue metricsAfterCreate "testns" "testcrt" CondStatus.condTrue = some 0 ∧
    readyStatusValue metricsAfterCreate "testns" "testcrt" CondStatus.condFalse = some 0 ∧
    expirationValue metricsAfterCreate "testns" "testcrt" = some 0 ∧
    syncCallCount metricsAfterCreate "metrics_test" = some 1 ∧
    readyStatusValue metricsAfterUpdate "testns" "testcrt" CondStatus.condTrue = some 1 ∧
    readyStatusValue metricsAfterUpdate "testns" "testcrt" CondStatus.condUnknown = some 0 ∧
    readyStatusValue metricsAfterUpdate "testns" "testcrt" CondStatus.condFalse = some 0 ∧
    expirationValue metricsAfterUpdate "testns" "testcrt" = some 100 ∧
    syncCallCount metricsAfterUpdate "metrics_test" = some 2 ∧
    renderMetrics metricsAfterCreate = expectedAfterCreate ∧
    renderMetrics metricsAfterUpdate = expectedAfterUpdate := by
  decide

/-- Claim C2: the sync-call counter counts attempts: after processing any
sequence of work items, whatever each attempt's outcome (success,
transient error or terminal error), the controller's counter equals its
previous value plus the number of attempts; consequently it is
monotonically non-decreasing along any processing sequence. -/
theorem sync_call_count_counts_attempts :
    (∀ (cn : String) (rl : RateLimiter) (items : List (String × SyncOutcome))
        (st : RunnerState),
      getCount (processAll cn rl items st).metrics.syncCounts cn =
        getCount st.metrics.syncCounts cn + items.length) ∧
    (∀ (cn : String) (rl : RateLimiter) (items more : List (String × SyncOutcome))
        (st : RunnerState),
      getCount (processAll cn rl items st).metrics.syncCounts cn ≤
        getCount (processAll cn rl (items ++ more) st).metrics.syncCounts cn) := by
  constructor
  · exact getCount_processAll
  · intro cn rl items more st
    rw [getCount_processAll, getCount_processAll, List.length_append]
    omega

/-- Claim C3 counterexample: with no resources present the exposition is
exactly the clock metric: the sync-call counter series is absent (so the
endpoint does not expose "the fixed clock gauge and a sync-call
counter" — only the clock metric). -/
theorem no_sync_counter_before_first_sync :
    renderMetrics emptyMetrics = clockMetric ∧
    renderLines emptyMetrics = [clockMetric] ∧
    syncCallCount emptyMetrics "metrics_test" = none ∧
    syncBlock emptyMetrics.syncCounts = [] := by
  decide

/-- Claim C3 amended: when no resources are present (before any
Certificate is created), the metrics endpoint exposes only the fixed
clock metric and nothing else; the sync-call counter series appears only
once a first sync attempt has incremented it. -/
theorem initial_exposition_only_clock :
    renderMetrics emptyMetrics = clockMetric ∧
    syncCallCount (IncrementSyncCallCount emptyMetrics "metrics_test") "metrics_test" =
      some 1 := by
  decide

/-- Claim C4: after the only Certificate is deleted, every
per-certificate series is gone (ready status and expiration read none for
every condition), the exposition is exactly the clock metric followed by
a sync-call counter reading 3, and nothing else remains. -/
theorem deletion_removes_certificate_series :
    renderMetrics metricsAfterDelete = expectedAfterDelete ∧
    metricsAfterDelete.certs = [] ∧
    readyStatusValue metricsAfterDelete "testns" "testcrt" CondStatus.condUnknown = none ∧
    readyStatusValue metricsAfterDelete "testns" "testcrt" CondStatus.condTrue = none ∧
    readyStatusValue metricsAfterDelete "testns" "testcrt" CondStatus.condFalse = none ∧
    expirationValue metricsAfterDelete "testns" "testcrt" = none ∧
    syncCallCount metricsAfterDelete "metrics_test" = some 3 := by
  decide

/-- Claim C5 counterexample: the clock time metric is declared a counter,
not a gauge, in its TYPE header, and its value is rendered in exponential
notation (%.9e gives 1.136214245e+09), not fixed-point. -/
theorem clock_metric_counter_not_gauge :
    clockMetric = String.intercalate "\n" clockMetricLines ∧
    clockMetricLines[1]? =
      some "# TYPE certmanager_clock_time_seconds counter" ∧
    ¬ clockMetricLines[1]? =
      some "# TYPE certmanager_clock_time_seconds gauge" ∧
    formatE9 fixedClockUnix = "1.136214245e+09" ∧
    'e' ∈ (formatE9 fixedClockUnix).toList := by
  decide

/-- Claim C5 amended: the clock time metric certmanager_clock_time_seconds
is a counter whose value is rendered in Go %.9e exponential notation; its
HELP/TYPE headers and value line are the exact text below, and every
exposition of the endpoint contains that exact text. -/
theorem clock_metric_line_exact :
    clockMetric =
      "# HELP certmanager_clock_time_seconds The clock time given in seconds (from 1970/01/01 UTC).\n" ++
      "# TYPE certmanager_clock_time_seconds counter\n" ++
      "certmanager_clock_time_seconds 1.136214245e+09" ∧
    ∀ s : MetricsState, clockMetric ∈ renderLines s := by
  constructor
  · decide
  · intro s
    simp [renderLines]

/-- Claim C6: NewController accepts a nil (none) rate limiter: the
controller is constructed with the work queue's built-in default backoff
as its effective rate limiter, and starting it with zero pre-existing
resources (an empty queue) succeeds, leaving the state unchanged. -/
theorem nil_rate_limiter_safe_start (name : String) (syncFn : String → SyncOutcome)
    (mustSync : List Bool) (st : RunnerState)
    (h : mustSync.all (fun b => b) = true) :
    (NewController name syncFn mustSync none []).rateLimiter = DefaultControllerRateLimiter ∧
    (NewController name syncFn mustSync none []).start st = Except.ok st := by
  constructor
  · rfl
  · simp [NewController, Controller.start, h, processAll]

/-- Witness for nil_rate_limiter_safe_start at concrete inputs. -/
theorem nil_rate_limiter_safe_start_witness :
    ([true].all (fun b => b) = true) ∧
    ((NewController "metrics_test" (fun _ => SyncOutcome.success) [true] none []).rateLimiter =
        DefaultControllerRateLimiter ∧
      (NewController "metrics_test" (fun _ => SyncOutcome.success) [true] none []).start
          { metrics := emptyMetrics, failures := [] } =
        Except.ok { metrics := emptyMetrics, failures := [] }) :=
  ⟨by decide,
   nil_rate_limiter_safe_start "metrics_test" (fun _ => SyncOutcome.success) [true]
     { metrics := emptyMetrics, failures := [] } (by decide)⟩

/-- Claim C7: when the number of backends claiming a Pending Challenge's
solver reference is zero or more than one, dispatch reports a
configuration error and the Challenge's state does not advance: it
remains Pending, unchanged. -/
theorem ambiguous_solver_match_fails (backends : List SolverBackend) (ch : Challenge)
    (hp : ch.state = ChallengeState.Pending)
    (hn : (matchingBackends backends ch.solverRef).length ≠ 1) :
    (dispatchChallenge backends ch).2.isSome = true ∧
    (dispatchChallenge backends ch).1.state = ChallengeState.Pending ∧
    (dispatchChallenge backends ch).1.state = ch.state := by
  rcases hm : matchingBackends backends ch.solverRef with _ | ⟨b, t⟩
  · simp [dispatchChallenge, hm, hp]
  · cases t with
    | nil => simp [hm] at hn
    | cons b2 t2 => simp [dispatchChallenge, hm, hp]

/-- Two solver backends both claiming the same group/kind. -/
def twoClaimingBackends : List SolverBackend :=
  [ { claims := { group := "acme.mycompany.com", kind := "MyDNSSolver" },
      endpoint := "https://solver-a.example" },
    { claims := { group := "acme.mycompany.com", kind := "MyDNSSolver" },
      endpoint := "https://solver-b.example" } ]

/-- A Pending Challenge referencing the doubly-claimed group/kind. -/
def pendingChallenge : Challenge :=
  { solverRef := { group := "acme.mycompany.com", kind := "MyDNSSolver" },
    state := ChallengeState.Pending, reason := none }

/-- Witness for ambiguous_solver_match_fails: two backends claiming the
same kind as the Challenge's reference. -/
theorem ambiguous_solver_match_fails_witness :
    (pendingChallenge.state = ChallengeState.Pending ∧
      (matchingBackends twoClaimingBackends pendingChallenge.solverRef).length ≠ 1) ∧
    ((dispatchChallenge twoClaimingBackends pendingChallenge).2.isSome = true ∧
      (dispatchChallenge twoClaimingBackends pendingChallenge).1.state =
        ChallengeState.Pending ∧
      (dispatchChallenge twoClaimingBackends pendingChallenge).1.state =
        pendingChallenge.state) :=
  ⟨⟨by decide, by decide⟩,
   ambiguous_solver_match_fails twoClaimingBackends pendingChallenge (by decide) (by decide)⟩

/-- Claim C8: for any key and any starting failure table, the requeue
delays of consecutive transient failures are monotonically non-decreasing
(m ≤ n implies the m-th delay is at most the n-th), every delay is
bounded by the rate limiter's cap, and after a success (Forget) the next
delay is the baseline delay. -/
theorem backoff_monotone_capped_reset (rl : RateLimiter) (st : List (String × Nat))
    (k : String) (m n : Nat) (h : m ≤ n) :
    nthDelay rl st k m ≤ nthDelay rl st k n ∧
    nthDelay rl st k n ≤ rl.maxDelay ∧
    nthDelay rl (forgetItem st k) k 0 = rl.delayFor 0 := by
  refine ⟨?_, ?_, ?_⟩
  · rw [nthDelay_eq, nthDelay_eq]
    exact delayFor_mono rl (by omega)
  · rw [nthDelay_eq]
    unfold RateLimiter.delayFor
    exact min_le_right _ _
  · simp [nthDelay_eq, getCount_forgetItem_self]

/-- Witness for backoff_monotone_capped_reset with the default rate
limiter on a concrete key. -/
theorem backoff_monotone_capped_reset_witness :
    (1 ≤ 3) ∧
    (nthDelay DefaultControllerRateLimiter [] "testns/testcrt" 1 ≤
        nthDelay DefaultControllerRateLimiter [] "testns/testcrt" 3 ∧
      nthDelay DefaultControllerRateLimiter [] "testns/testcrt" 3 ≤
        DefaultControllerRateLimiter.maxDelay ∧
      nthDelay DefaultControllerRateLimiter (forgetItem [] "testns/testcrt")
          "testns/testcrt" 0 =
        DefaultControllerRateLimiter.delayFor 0) :=
  ⟨by decide,
   backoff_monotone_capped_reset DefaultControllerRateLimiter [] "testns/testcrt" 1 3
     (by decide)⟩

/-- Claim C9 counterexample: the feature package does register into a
process-wide mutable feature-gate singleton: its init mutates the
registry, which afterwards holds the three cert-manager gates it held
none of before. -/
theorem feature_package_registers_into_singleton :
    featureInit initialDefaultMutableFeatureGate ≠ initialDefaultMutableFeatureGate ∧
    (featureInit initialDefaultMutableFeatureGate).known.length = 3 ∧
    initialDefaultMutableFeatureGate.known.length = 0 := by
  decide

/-- Claim C9 amended: feature-flag configuration is not an immutable
structure passed by reference: the feature package's init registers its
gates into the process-wide mutable feature-gate singleton
(DefaultMutableFeatureGate), appending the cert-manager gate specs to
whatever registry state it finds and so mutating it. -/
theorem feature_init_mutates_global_registry :
    ∀ g : MutableFeatureGate,
      (featureInit g).known = g.known ++ defaultCertManagerFeatureGates ∧
      featureInit g ≠ g := by
  intro g
  refine ⟨rfl, ?_⟩
  intro hEq
  have h : (g.known ++ defaultCertManagerFeatureGates).length = g.known.length := by
    rw [show g.known ++ defaultCertManagerFeatureGates = (featureInit g).known from rfl, hEq]
  rw [List.length_append] at h
  have h3 : defaultCertManagerFeatureGates.length = 3 := rfl
  omega

/-- Claim C10: the feature gates registered by the feature package are
exactly ValidateCAA, ExperimentalCertificateSigningRequestControllers and
ExperimentalGatewayAPISupport, each with Default false and PreRelease
Alpha, so every feature-gated behaviour is disabled unless explicitly
enabled at runtime. -/
theorem all_gates_default_off_alpha :
    defaultCertManagerFeatureGates.map Prod.fst =
      [ValidateCAA, ExperimentalCertificateSigningRequestControllers,
       ExperimentalGatewayAPISupport] ∧
    defaultCertManagerFeatureGates.all
      (fun p => !p.2.Default && p.2.PreRelease == PreReleaseStage.Alpha) = true := by
  decide
